import Mathlib

/-!
Shallow embedding of the ColorNoise repository's audio core
(`src/js/sound_designer_engine.js`, `src/js/NoiseGenerator.js`,
`src/update-index.js`) and proofs about the spec's claims.

JavaScript numbers are modelled as rationals (`ℚ`) wherever the source
only uses field operations; the precomputed transfer curves use
`Math.tanh`, `Math.PI` and `Math.sqrt` and are modelled over `ℝ`.
`Math.random()` calls are modelled by an explicit stream `u : ℕ → ℚ`
of draws together with a cursor `k : ℕ` threaded through the code.
-/

namespace ColorNoise

/-! ## Noise generator state (`SoundDesignerEngine.noiseStates`)

The constructor builds
`{ brown: {state:0}, pink: {generators: 7 draws, counters: 7 zeros},
   violet: {state:0, prev:0}, gray: {state: Array(4).fill(0)},
   red: {state:0}, green: {filterState: Array(6).fill(0)} }`.
The fixed-size arrays (4 gray cells, 6 green cells) are modelled as
structures with one field per cell. -/

structure GrayState where
  s0 : ℚ
  s1 : ℚ
  s2 : ℚ
  s3 : ℚ
deriving DecidableEq

structure GreenState where
  t0 : ℚ
  t1 : ℚ
  t2 : ℚ
  t3 : ℚ
  t4 : ℚ
  t5 : ℚ
deriving DecidableEq

structure PinkState where
  generators : List ℚ
  counters : List ℕ
deriving DecidableEq

structure NoiseStates where
  brown : ℚ
  pink : PinkState
  violetState : ℚ
  violetPrev : ℚ
  gray : GrayState
  red : ℚ
  green : GreenState
deriving DecidableEq

/-- `generateWhiteNoise`: `(Math.random() * 2 - 1) * 0.3`.
Returns the sample and the advanced draw cursor. -/
def generateWhiteNoise (u : ℕ → ℚ) (k : ℕ) : ℚ × ℕ :=
  ((u k * 2 - 1) * 0.3, k + 1)

/-- `updateRates = [1, 2, 4, 8, 16, 32, 64]` (Voss-McCartney rows). -/
def pinkUpdateRates : List ℕ := [1, 2, 4, 8, 16, 32, 64]

/-- The `updateRates.forEach` body of `generatePinkNoise` /
`generatePinkNoiseSample`: per row, redraw the generator when
`counters[index] % rate === 0`, add it to the running sum, and
increment the counter.  Returns (sum, generators', counters', cursor'). -/
def pinkRows : List ℚ → List ℕ → List ℕ → (ℕ → ℚ) → ℕ → ℚ × List ℚ × List ℕ × ℕ
  | g :: gs, c :: cs, r :: rs, u, k =>
    let g' := if c % r = 0 then u k * 2 - 1 else g
    let k' := if c % r = 0 then k + 1 else k
    let rest := pinkRows gs cs rs u k'
    (g' + rest.1, g' :: rest.2.1, (c + 1) :: rest.2.2.1, rest.2.2.2)
  | _, _, _, _, k => (0, [], [], k)

/-- `SoundDesignerEngine.generatePinkNoise`: row update then `sum * 0.05`. -/
def generatePinkNoise (st : NoiseStates) (u : ℕ → ℚ) (k : ℕ) : ℚ × NoiseStates × ℕ :=
  let res := pinkRows st.pink.generators st.pink.counters pinkUpdateRates u k
  (res.1 * 0.05, { st with pink := ⟨res.2.1, res.2.2.1⟩ }, res.2.2.2)

/-- The "gentle limiting" block shared by `generateBrownNoise` and
`generateBrownNoiseSample`: when `Math.abs(state) > 0.95`, replace the
state by `sign * (0.95 + excess * 0.1)`. -/
def softClamp (x : ℚ) : ℚ :=
  if 0.95 < |x| then (if 0 < x then 1 else -1) * (0.95 + (|x| - 0.95) * 0.1) else x

/-- `SoundDesignerEngine.generateBrownNoise` state update:
`state = state * 0.999 + (Math.random()*2-1) * 0.02`, then the gentle
limiting block. -/
def brownStepState (s r : ℚ) : ℚ :=
  softClamp (s * 0.999 + (r * 2 - 1) * 0.02)

def generateBrownNoise (st : NoiseStates) (u : ℕ → ℚ) (k : ℕ) : ℚ × NoiseStates × ℕ :=
  let s' := brownStepState st.brown (u k)
  (s' * 0.4, { st with brown := s' }, k + 1)

/-- `SoundDesignerEngine.generateBlueNoise`:
`whiteNoise * (1 + Math.random() * 0.5) * 0.6`. -/
def generateBlueNoise (st : NoiseStates) (u : ℕ → ℚ) (k : ℕ) : ℚ × NoiseStates × ℕ :=
  let w := generateWhiteNoise u k
  (w.1 * (1 + u w.2 * 0.5) * 0.6, st, w.2 + 1)

/-- `SoundDesignerEngine.generateVioletNoise`: first difference of
fresh white input and `state.prev`, then `* 0.5`. -/
def generateVioletNoise (st : NoiseStates) (u : ℕ → ℚ) (k : ℕ) : ℚ × NoiseStates × ℕ :=
  let w := generateWhiteNoise u k
  ((w.1 - st.violetPrev) * 0.5, { st with violetPrev := w.1 }, w.2)

/-- `SoundDesignerEngine.generateGrayNoise`: the source loops
`i = 0,1,2` over the 4-cell array with
`filtered = 0.7*output + 0.3*state[i]; state[i+1] = state[i];
state[i] = filtered; output = filtered`.  Because `state[i+1]` is
overwritten with `state[i]` before iteration `i+1` reads it, each read
of `state[i]` yields the original `state[0]`; the loop is unrolled
below with that mutation order made explicit. -/
def generateGrayNoise (st : NoiseStates) (u : ℕ → ℚ) (k : ℕ) : ℚ × NoiseStates × ℕ :=
  let w := generateWhiteNoise u k
  let f0 := 0.7 * w.1 + 0.3 * st.gray.s0
  let a1 := st.gray.s0
  let a0 := f0
  let f1 := 0.7 * f0 + 0.3 * a1
  let a2 := a1
  let a1' := f1
  let f2 := 0.7 * f1 + 0.3 * a2
  let a3 := a2
  let a2' := f2
  (f2 * 0.6, { st with gray := ⟨a0, a1', a2', a3⟩ }, w.2)

/-- `SoundDesignerEngine.generateRedNoise` state update:
`state = state * 0.9995 + (Math.random()*2-1) * 0.01`.
The source applies no limiting here. -/
def redStepState (s r : ℚ) : ℚ :=
  s * 0.9995 + (r * 2 - 1) * 0.01

def generateRedNoise (st : NoiseStates) (u : ℕ → ℚ) (k : ℕ) : ℚ × NoiseStates × ℕ :=
  let s' := redStepState st.red (u k)
  (s' * 0.8, { st with red := s' }, k + 1)

/-- `SoundDesignerEngine.generateGreenNoise`: loop `i = 0, 2, 4` over
the 6-cell `filterState` with
`hp = sample - fs[i]*0.95; lp = hp*0.1 + fs[i+1]*0.9;
fs[i] = sample; fs[i+1] = lp; sample = lp`, unrolled. -/
def generateGreenNoise (st : NoiseStates) (u : ℕ → ℚ) (k : ℕ) : ℚ × NoiseStates × ℕ :=
  let w := generateWhiteNoise u k
  let hp0 := w.1 - st.green.t0 * 0.95
  let lp0 := hp0 * 0.1 + st.green.t1 * 0.9
  let hp1 := lp0 - st.green.t2 * 0.95
  let lp1 := hp1 * 0.1 + st.green.t3 * 0.9
  let hp2 := lp1 - st.green.t4 * 0.95
  let lp2 := hp2 * 0.1 + st.green.t5 * 0.9
  (lp2 * 1.2, { st with green := ⟨w.1, lp0, lp0, lp1, lp1, lp2⟩ }, w.2)

/-- The noise types handled by the `switch` in
`SoundDesignerEngine.generateAudio`. -/
def engineRecognizedTypes : List String :=
  ["white", "pink", "brown", "blue", "violet", "gray", "red", "green"]

/-- The `switch (this.currentNoiseType)` dispatch inside the sample
loop of `SoundDesignerEngine.generateAudio`; the `default` arm calls
`generateWhiteNoise`. -/
def engineStep (t : String) (st : NoiseStates) (u : ℕ → ℚ) (k : ℕ) : ℚ × NoiseStates × ℕ :=
  if t = "white" then
    let w := generateWhiteNoise u k
    (w.1, st, w.2)
  else if t = "pink" then generatePinkNoise st u k
  else if t = "brown" then generateBrownNoise st u k
  else if t = "blue" then generateBlueNoise st u k
  else if t = "violet" then generateVioletNoise st u k
  else if t = "gray" then generateGrayNoise st u k
  else if t = "red" then generateRedNoise st u k
  else if t = "green" then generateGreenNoise st u k
  else
    let w := generateWhiteNoise u k
    (w.1, st, w.2)

/-- The `for (let i = 0; i < bufferLength; i++)` loop of
`generateAudio`: left channel gets the sample, right channel gets
`sample * 0.95 + (Math.random() * 0.1 - 0.05)`. -/
def genLoop (t : String) (u : ℕ → ℚ) : ℕ → NoiseStates → ℕ → (List ℚ × List ℚ) × NoiseStates × ℕ
  | 0, st, k => (([], []), st, k)
  | n + 1, st, k =>
    let res := engineStep t st u k
    let r := res.1 * 0.95 + (u res.2.2 * 0.1 - 0.05)
    let rest := genLoop t u n res.2.1 (res.2.2 + 1)
    ((res.1 :: rest.1.1, r :: rest.1.2), rest.2)

/-- `SoundDesignerEngine.generateAudio`: when `!this.isPlaying` the
callback fills both channels with zeros and returns without touching
any generator state; otherwise it runs the sample loop. -/
def generateAudio (playing : Bool) (t : String) (n : ℕ) (st : NoiseStates) (u : ℕ → ℚ)
    (k : ℕ) : (List ℚ × List ℚ) × NoiseStates × ℕ :=
  if playing then genLoop t u n st k
  else ((List.replicate n 0, List.replicate n 0), st, k)

/-! ## Engine control state and control methods -/

/-- The `name` fields of `SoundDesignerEngine.eqFrequencies`, in order. -/
def eqBandNames : List String :=
  ["subbass", "bass", "lowbass", "lowmid", "mid", "uppermid",
   "lowtreble", "treble", "air", "ultrahigh"]

/-- The effect names handled by `SoundDesignerEngine.updateEffect`. -/
def effectNames : List String :=
  ["reverb", "spatial", "warmth", "saturation", "dynamics", "modulation"]

/-- The live parameters of `SoundDesignerEngine` touched by the control
methods: playback flag, active noise type, generator memories, the EQ
filters' gain values (in `eqFrequencies` order), and the audio-node
parameters written by `updateAutoGainCompensation` / `updateEffect`. -/
structure EngineState where
  isPlaying : Bool
  currentNoiseType : String
  noiseStates : NoiseStates
  eqGains : List ℚ
  masterGain : ℚ
  reverbWetGain : ℚ
  reverbDryGain : ℚ
  spatialPan : ℚ
  warmthFreq : ℚ
  saturationGainValue : ℚ
  saturationDrive : ℚ
  compressorRatio : ℚ
  compressorThreshold : ℚ
  modulationGainValue : ℚ
deriving DecidableEq

/-- The `totalBoost` accumulation of `updateAutoGainCompensation`:
`if (gain > 0) totalBoost += gain` over all EQ bands. -/
def positiveBoostSum (gains : List ℚ) : ℚ :=
  (gains.map fun g => if 0 < g then g else 0).sum

/-- The `compensationFactor` computation of `updateAutoGainCompensation`:
`1.0`, or `20 / totalBoost` when `totalBoost > 20`. -/
def compensationFactor (gains : List ℚ) : ℚ :=
  if 20 < positiveBoostSum gains then 20 / positiveBoostSum gains else 1

/-- `SoundDesignerEngine.updateAutoGainCompensation`: recompute the
factor from the current EQ gains and set
`masterGain.gain.value = baseVolume(1.0) * compensationFactor`. -/
def updateAutoGainCompensation (s : EngineState) : EngineState :=
  { s with masterGain := 1.0 * compensationFactor s.eqGains }

/-- `SoundDesignerEngine.updateEQBand`: look the band name up in
`eqFrequencies` with `findIndex`; when found (and the corresponding
filter node exists) set its gain and recompute the auto compensation,
otherwise do nothing. -/
def updateEQBand (bandName : String) (gainDb : ℚ) (s : EngineState) : EngineState :=
  match eqBandNames.findIdx? (fun b => b = bandName) with
  | some i =>
    if i < s.eqGains.length then
      updateAutoGainCompensation { s with eqGains := s.eqGains.set i gainDb }
    else s
  | none => s

/-- `SoundDesignerEngine.updateEffect`: `normalizedValue = value / 100`,
then the `switch (effectName)` writes; an unknown effect name falls
through the switch and changes nothing. -/
def updateEffect (effectName : String) (value : ℚ) (s : EngineState) : EngineState :=
  let normalizedValue := value / 100
  if effectName = "reverb" then
    { s with reverbWetGain := normalizedValue * 0.8,
             reverbDryGain := 1 - normalizedValue * 0.5 }
  else if effectName = "spatial" then
    { s with spatialPan := (normalizedValue - 0.5) * 0.6 }
  else if effectName = "warmth" then
    { s with warmthFreq := max 1000 (20000 - normalizedValue * 15000) }
  else if effectName = "saturation" then
    { s with saturationGainValue := 1 + normalizedValue * 1.5,
             saturationDrive := normalizedValue * 0.8 }
  else if effectName = "dynamics" then
    { s with compressorRatio := 1 + normalizedValue * 8,
             compressorThreshold := -40 + normalizedValue * 35 }
  else if effectName = "modulation" then
    { s with modulationGainValue := normalizedValue * 0.3 }
  else s

/-- `SoundDesignerEngine.selectNoiseType`: sets
`this.currentNoiseType = type` (the rest of the method only updates UI
button classes). -/
def selectNoiseType (t : String) (s : EngineState) : EngineState :=
  { s with currentNoiseType := t }

/-! ## Profiles (`exportProfile` / `importProfile` / `loadProfile`) -/

/-- A parsed profile JSON object.  Each field is optional: `loadProfile`
guards every section with `if (profile.<field>)`. -/
structure Profile where
  name : Option String
  noiseType : Option String
  eq : Option (List (String × ℚ))
  effects : Option (List (String × ℚ))
deriving DecidableEq

/-- `SoundDesignerEngine.loadProfile`: applies `noiseType`, then each
`eq` entry, then each `effects` entry — each section only when present.
The source guards each entry with a `document.getElementById` pair
(`eq-NAME` / effect sliders); those controls exist exactly for the
configured band and effect names, modelled as membership tests. -/
def loadProfile (profile : Profile) (s : EngineState) : EngineState :=
  let s1 :=
    match profile.noiseType with
    | some t => selectNoiseType t s
    | none => s
  let s2 :=
    match profile.eq with
    | some entries =>
      entries.foldl (fun st e => if e.1 ∈ eqBandNames then updateEQBand e.1 e.2 st else st) s1
    | none => s1
  match profile.effects with
  | some entries =>
    entries.foldl (fun st e => if e.1 ∈ effectNames then updateEffect e.1 e.2 st else st) s2
  | none => s2

/-- The generator state right after the `SoundDesignerEngine`
constructor; the pink generators are seeded with random draws, passed
in as `pinkInit`. -/
def initNoiseStates (pinkInit : List ℚ) : NoiseStates :=
  { brown := 0
    pink := ⟨pinkInit, List.replicate 7 0⟩
    violetState := 0
    violetPrev := 0
    gray := ⟨0, 0, 0, 0⟩
    red := 0
    green := ⟨0, 0, 0, 0, 0, 0⟩ }

/-- Engine state after construction and `createAudioGraph` /
`connectAudioGraph` (master gain 1.0, EQ gains all 0, initial reverb
mix dry 0.8 / wet 0.2, warmth cutoff 8000, compressor ratio 3 at
threshold -24, saturation curve built with its default amount 0.5). -/
def initState (pinkInit : List ℚ) : EngineState :=
  { isPlaying := false
    currentNoiseType := "white"
    noiseStates := initNoiseStates pinkInit
    eqGains := List.replicate 10 0
    masterGain := 1
    reverbWetGain := 0.2
    reverbDryGain := 0.8
    spatialPan := 0
    warmthFreq := 8000
    saturationGainValue := 1
    saturationDrive := 0.5
    compressorRatio := 3
    compressorThreshold := -24
    modulationGainValue := 0 }

/-- The effect-knob parameters of the engine state, bundled for frame
conditions (everything `updateEffect` can write). -/
def effectParams (s : EngineState) : ℚ × ℚ × ℚ × ℚ × ℚ × ℚ × ℚ × ℚ × ℚ :=
  (s.reverbWetGain, s.reverbDryGain, s.spatialPan, s.warmthFreq,
   s.saturationGainValue, s.saturationDrive, s.compressorRatio,
   s.compressorThreshold, s.modulationGainValue)

/-! ## Iterated brown/red integrator runs -/

/-- Iterate the brown-noise state update over a list of raw draws. -/
def brownRunState (s : ℚ) (rs : List ℚ) : ℚ := rs.foldl brownStepState s

/-- Iterate the red-noise state update over a list of raw draws. -/
def redRunState (s : ℚ) (rs : List ℚ) : ℚ := rs.foldl redStepState s

/-! ## `NoiseGenerator` (src/js/NoiseGenerator.js) per-sample path -/

/-- The fields of `NoiseGenerator` used by `generateContinuousNoise`:
`brownNoiseState`, the pink rows/counters, the lazily created
`greenNoiseBuffer = [b0, b1]` and `blueNoisePrev`. -/
structure NGState where
  brownNoiseState : ℚ
  pinkNoiseState : List ℚ
  pinkNoiseCounters : List ℕ
  greenNoiseBuffer0 : ℚ
  greenNoiseBuffer1 : ℚ
  blueNoisePrev : ℚ
deriving DecidableEq

/-- `NoiseGenerator.generatePinkNoiseSample`: same row update as the
engine's pink generator, scaled by `0.15`. -/
def ngPinkSample (st : NGState) (u : ℕ → ℚ) (k : ℕ) : ℚ × NGState × ℕ :=
  let res := pinkRows st.pinkNoiseState st.pinkNoiseCounters pinkUpdateRates u k
  (res.1 * 0.15, { st with pinkNoiseState := res.2.1, pinkNoiseCounters := res.2.2.1 },
   res.2.2.2)

/-- `NoiseGenerator.generateBrownNoiseSample`: scaling `0.018`,
leakage `0.9995`, then the same gentle-limiting block. -/
def ngBrownSample (st : NGState) (u : ℕ → ℚ) (k : ℕ) : ℚ × NGState × ℕ :=
  let s' := softClamp (st.brownNoiseState * 0.9995 + (u k * 2 - 1) * 0.018)
  (s', { st with brownNoiseState := s' }, k + 1)

/-- `NoiseGenerator.generateGreenNoiseSample`:
`filtered = 0.8*white + 0.3*buf[0] - 0.1*buf[1]`, shift the buffer. -/
def ngGreenSample (st : NGState) (u : ℕ → ℚ) (k : ℕ) : ℚ × NGState × ℕ :=
  let w := u k * 2 - 1
  let filtered := 0.8 * w + 0.3 * st.greenNoiseBuffer0 - 0.1 * st.greenNoiseBuffer1
  (filtered * 0.7,
   { st with greenNoiseBuffer1 := st.greenNoiseBuffer0, greenNoiseBuffer0 := filtered },
   k + 1)

/-- `NoiseGenerator.generateBlueNoiseSample`:
`highpass = 0.85 * (prev + white - prev)`, remember the white draw. -/
def ngBlueSample (st : NGState) (u : ℕ → ℚ) (k : ℕ) : ℚ × NGState × ℕ :=
  let w := u k * 2 - 1
  let highpass := 0.85 * (st.blueNoisePrev + w - st.blueNoisePrev)
  (highpass * 0.8, { st with blueNoisePrev := w }, k + 1)

/-- The noise types handled by the `switch` in
`NoiseGenerator.generateContinuousNoise`. -/
def ngRecognizedTypes : List String := ["white", "pink", "brown", "green", "blue"]

/-- The `switch (this.currentNoiseType)` dispatch inside the sample
loop of `NoiseGenerator.generateContinuousNoise`; the `default` arm
calls `generatePinkNoiseSample`. -/
def ngContinuousStep (t : String) (st : NGState) (u : ℕ → ℚ) (k : ℕ) : ℚ × NGState × ℕ :=
  if t = "white" then (u k * 2 - 1, st, k + 1)
  else if t = "pink" then ngPinkSample st u k
  else if t = "brown" then ngBrownSample st u k
  else if t = "green" then ngGreenSample st u k
  else if t = "blue" then ngBlueSample st u k
  else ngPinkSample st u k

/-! ## Precomputed transfer curves (real-valued) -/

/-- The sample grid `x = (i * 2) / samples - 1` used by both
`createSaturationCurve` and `createSoftLimiterCurve`
(`samples = 44100`). -/
noncomputable def curveSampleX (i : ℕ) : ℝ := (i * 2 : ℝ) / 44100 - 1

/-- The transfer function of `createSoftLimiterCurve`:
`Math.tanh(x * 0.7) * 0.95`. -/
noncomputable def softLimiterCurveFun (x : ℝ) : ℝ := Real.tanh (x * 0.7) * 0.95

/-- `SoundDesignerEngine.createSoftLimiterCurve` entry `i`. -/
noncomputable def createSoftLimiterCurve (i : ℕ) : ℝ := softLimiterCurveFun (curveSampleX i)

/-- The transfer function of `createSaturationCurve` with drive
`amount`:  `((3 + amount*20) * x * 20 * deg) / (Math.PI + amount*|x|)`
with `deg = Math.PI / 180`. -/
noncomputable def saturationCurveFun (amount x : ℝ) : ℝ :=
  ((3 + amount * 20) * x * 20 * (Real.pi / 180)) / (Real.pi + amount * |x|)

/-- `SoundDesignerEngine.createSaturationCurve` entry `i`. -/
noncomputable def createSaturationCurve (amount : ℝ) (i : ℕ) : ℝ :=
  saturationCurveFun amount (curveSampleX i)

/-- The drive amount passed to `createSaturationCurve` by
`updateEffect('saturation', value)`: `normalizedValue * 0.8`. -/
def saturationDriveOfKnob (value : ℚ) : ℚ := value / 100 * 0.8

/-! ## `AudioEffects.setReverbLevel` (src/update-index.js) -/

/-- `this.reverbLevel = Math.max(0, Math.min(1, level))`. -/
noncomputable def reverbLevelClamped (level : ℝ) : ℝ := max 0 (min 1 level)

/-- `AudioEffects.setReverbLevel` dry gain:
`Math.sqrt(1 - this.reverbLevel)`. -/
noncomputable def setReverbDryLevel (level : ℝ) : ℝ :=
  Real.sqrt (1 - reverbLevelClamped level)

/-- `AudioEffects.setReverbLevel` wet gain:
`Math.sqrt(this.reverbLevel)`. -/
noncomputable def setReverbWetLevel (level : ℝ) : ℝ :=
  Real.sqrt (reverbLevelClamped level)

/-! ## Helper lemmas -/

lemma findIdx?_eq_none_of_not_mem {l : List String} {x : String} (h : x ∉ l) :
    l.findIdx? (fun b => b = x) = none := by
  induction l with
  | nil => rfl
  | cons a as ih =>
    have ha : ¬(a = x) := fun hax => h (hax ▸ List.mem_cons_self a as)
    have has : x ∉ as := fun hx => h (List.mem_cons_of_mem a hx)
    simp [List.findIdx?_cons, ha, ih has]

lemma updateEQBand_frame (n : String) (g : ℚ) (st : EngineState) :
    effectParams (updateEQBand n g st) = effectParams st ∧
    (updateEQBand n g st).currentNoiseType = st.currentNoiseType := by
  unfold updateEQBand
  split
  · split
    · exact ⟨rfl, rfl⟩
    · exact ⟨rfl, rfl⟩
  · exact ⟨rfl, rfl⟩

lemma eqFold_frame (entries : List (String × ℚ)) (st : EngineState) :
    effectParams
        (entries.foldl
          (fun st e => if e.1 ∈ eqBandNames then updateEQBand e.1 e.2 st else st) st) =
      effectParams st ∧
    (entries.foldl
        (fun st e => if e.1 ∈ eqBandNames then updateEQBand e.1 e.2 st else st)
        st).currentNoiseType = st.currentNoiseType := by
  induction entries generalizing st with
  | nil => exact ⟨rfl, rfl⟩
  | cons e es ih =>
    simp only [List.foldl_cons]
    by_cases he : e.1 ∈ eqBandNames
    · simp only [he, if_pos]
      refine ⟨?_, ?_⟩
      · rw [(ih (updateEQBand e.1 e.2 st)).1, (updateEQBand_frame e.1 e.2 st).1]
      · rw [(ih (updateEQBand e.1 e.2 st)).2, (updateEQBand_frame e.1 e.2 st).2]
    · simp only [he, if_neg, not_false_iff]
      exact ih st

/-! ## C8 — stopped render callback emits silence, advances nothing -/

/-- C8: while the engine is stopped (`isPlaying = false`),
`generateAudio` is still an ordinary total function of the render
callback: it writes a zero sample into both channels for the whole
frame count, leaves every generator state unchanged and consumes no
random draws (the script node stays connected; `stop()` only flips the
flag). -/
theorem generateAudio_stopped_silence (t : String) (n : ℕ) (st : NoiseStates)
    (u : ℕ → ℚ) (k : ℕ) :
    generateAudio false t n st u k = ((List.replicate n 0, List.replicate n 0), st, k) :=
  rfl

/-! ## C9 — switching noise type only changes the active-type field -/

/-- C9: `selectNoiseType` sets the active noise type and leaves every
generator memory (pink rows and counters, brown/red integrators,
violet previous sample, gray and green filter cells) and every other
live parameter untouched. -/
theorem selectNoiseType_only_switches_type (t : String) (s : EngineState) :
    (selectNoiseType t s).currentNoiseType = t ∧
    (selectNoiseType t s).noiseStates.pink.generators = s.noiseStates.pink.generators ∧
    (selectNoiseType t s).noiseStates.pink.counters = s.noiseStates.pink.counters ∧
    (selectNoiseType t s).noiseStates.brown = s.noiseStates.brown ∧
    (selectNoiseType t s).noiseStates.red = s.noiseStates.red ∧
    (selectNoiseType t s).noiseStates.violetPrev = s.noiseStates.violetPrev ∧
    (selectNoiseType t s).noiseStates.violetState = s.noiseStates.violetState ∧
    (selectNoiseType t s).noiseStates.gray = s.noiseStates.gray ∧
    (selectNoiseType t s).noiseStates.green = s.noiseStates.green ∧
    (selectNoiseType t s).isPlaying = s.isPlaying ∧
    (selectNoiseType t s).eqGains = s.eqGains ∧
    (selectNoiseType t s).masterGain = s.masterGain ∧
    effectParams (selectNoiseType t s) = effectParams s :=
  ⟨rfl, rfl, rfl, rfl, rfl, rfl, rfl, rfl, rfl, rfl, rfl, rfl, rfl⟩

/-! ## C10 — unknown EQ band name is a complete no-op -/

/-- C10: calling `updateEQBand` with a band name that matches no
configured band (`findIndex` returns -1) raises no error and returns
the state unchanged: no filter gain and no master-gain compensation is
touched. -/
theorem updateEQBand_unknown_band_noop (bandName : String) (g : ℚ) (s : EngineState)
    (h : bandName ∉ eqBandNames) : updateEQBand bandName g s = s := by
  unfold updateEQBand
  rw [findIdx?_eq_none_of_not_mem h]

/-- Witness for C10 at the concrete band name `"bogus"`. -/
theorem updateEQBand_unknown_band_noop_witness :
    "bogus" ∉ eqBandNames ∧
    updateEQBand "bogus" 5 (initState (List.replicate 7 0)) =
      initState (List.replicate 7 0) :=
  ⟨by decide, updateEQBand_unknown_band_noop "bogus" 5 _ (by decide)⟩

/-! ## C2 — auto gain compensation -/

/-- C2: the gain compensation sums only the strictly positive band
gains; the factor is `1` when that sum is at most 20 and `20 / sum`
when it exceeds 20, hence always in `(0, 1]`, and the compensated
total boost never exceeds the ceiling; `updateEQBand` recomputes it on
every successful band change and applies it multiplicatively to the
master gain (base volume `1.0`). -/
theorem autoGainCompensation_spec :
    (∀ gains : List ℚ,
      0 < compensationFactor gains ∧
      compensationFactor gains ≤ 1 ∧
      (positiveBoostSum gains ≤ 20 → compensationFactor gains = 1) ∧
      (20 < positiveBoostSum gains →
        compensationFactor gains = 20 / positiveBoostSum gains) ∧
      positiveBoostSum gains * compensationFactor gains ≤ 20) ∧
    (∀ (bandName : String) (g : ℚ) (s : EngineState) (i : ℕ),
      eqBandNames.findIdx? (fun b => b = bandName) = some i →
      i < s.eqGains.length →
      (updateEQBand bandName g s).eqGains = s.eqGains.set i g ∧
      (updateEQBand bandName g s).masterGain =
        1.0 * compensationFactor (s.eqGains.set i g)) := by
  constructor
  · intro gains
    by_cases h : 20 < positiveBoostSum gains
    · have hpos : (0 : ℚ) < positiveBoostSum gains := lt_trans (by norm_num) h
      have hfac : compensationFactor gains = 20 / positiveBoostSum gains := if_pos h
      refine ⟨?_, ?_, ?_, fun _ => hfac, ?_⟩
      · rw [hfac]; positivity
      · rw [hfac, div_le_one hpos]; linarith
      · intro hle; exact absurd h (not_lt.mpr hle)
      · rw [hfac, mul_div_cancel₀ _ (ne_of_gt hpos)]
    · have hfac : compensationFactor gains = 1 := if_neg h
      refine ⟨by rw [hfac]; norm_num, le_of_eq hfac, fun _ => hfac, ?_, ?_⟩
      · intro hgt; exact absurd hgt h
      · rw [hfac, mul_one]; exact not_lt.mp h
  · intro bandName g s i hidx hlen
    unfold updateEQBand
    rw [hidx]
    simp only [hlen, if_pos]
    exact ⟨rfl, rfl⟩

/-- Witness for C2: EQ gains `[25, -5, 0]` have positive-boost sum 25,
so the factor is `20 / 25`; a concrete `updateEQBand` call on the
`"bass"` band recomputes the master gain. -/
theorem autoGainCompensation_witness :
    20 < positiveBoostSum [25, -5, 0] ∧
    compensationFactor [25, -5, 0] = 20 / positiveBoostSum [25, -5, 0] ∧
    (updateEQBand "bass" 25 (initState (List.replicate 7 0))).masterGain =
      1.0 * compensationFactor ((initState (List.replicate 7 0)).eqGains.set 1 25) :=
  ⟨by norm_num [positiveBoostSum],
   (autoGainCompensation_spec.1 [25, -5, 0]).2.2.2.1 (by norm_num [positiveBoostSum]),
   (autoGainCompensation_spec.2 "bass" 25 (initState (List.replicate 7 0)) 1
      (by decide) (by norm_num [initState])).2⟩

/-! ## C3 — brown/red integrator boundedness -/

lemma brownStep_bound {s r : ℚ} (hs : |s| ≤ 1) (h0 : 0 ≤ r) (h1 : r ≤ 1) :
    |brownStepState s r| ≤ 1 := by
  obtain ⟨hs1, hs2⟩ := abs_le.mp hs
  have hub : s * 0.999 + (r * 2 - 1) * 0.02 ≤ 1.019 := by nlinarith
  have hlb : -1.019 ≤ s * 0.999 + (r * 2 - 1) * 0.02 := by nlinarith
  unfold brownStepState softClamp
  split_ifs with hc hp
  · rw [abs_of_pos hp] at hc ⊢
    rw [abs_le]
    constructor <;> nlinarith
  · have hle : s * 0.999 + (r * 2 - 1) * 0.02 ≤ 0 := not_lt.mp hp
    rw [abs_of_nonpos hle] at hc ⊢
    rw [abs_le]
    constructor <;> nlinarith
  · have hb := abs_le.mp (not_lt.mp hc)
    rw [abs_le]
    exact ⟨by linarith [hb.1], by linarith [hb.2]⟩

lemma redStep_bound {s r : ℚ} (hs : |s| ≤ 20) (h0 : 0 ≤ r) (h1 : r ≤ 1) :
    |redStepState s r| ≤ 20 := by
  obtain ⟨hs1, hs2⟩ := abs_le.mp hs
  unfold redStepState
  rw [abs_le]
  constructor <;> nlinarith

/-- C3 (amended): the brown generator soft-clamps its integrator
(excess above 0.95 compressed by 90%) while the red generator applies
no clamp at all; nevertheless both integrator states remain bounded
over arbitrarily long runs — brown stays within `[-1, 1]` (by the
clamp and leakage) and red within `[-20, 20]` (by leakage 0.9995
against step size 0.01 alone). -/
theorem brownRed_integrators_bounded (s₁ s₂ : ℚ) (rs : List ℚ)
    (h₁ : |s₁| ≤ 1) (h₂ : |s₂| ≤ 20) (hrs : ∀ r ∈ rs, 0 ≤ r ∧ r ≤ 1) :
    |brownRunState s₁ rs| ≤ 1 ∧ |redRunState s₂ rs| ≤ 20 := by
  induction rs generalizing s₁ s₂ with
  | nil => exact ⟨h₁, h₂⟩
  | cons r rs ih =>
    have hr := hrs r (List.mem_cons_self r rs)
    exact ih (brownStepState s₁ r) (redStepState s₂ r)
      (brownStep_bound h₁ hr.1 hr.2) (redStep_bound h₂ hr.1 hr.2)
      (fun x hx => hrs x (List.mem_cons_of_mem r hx))

/-- Witness for C3 (amended) on the concrete draw list `[0, 1, 1/2]`
from the zero states. -/
theorem brownRed_integrators_bounded_witness :
    |brownRunState 0 [0, 1, 1/2]| ≤ 1 ∧ |redRunState 0 [0, 1, 1/2]| ≤ 20 :=
  brownRed_integrators_bounded 0 0 [0, 1, 1/2] (by norm_num) (by norm_num)
    (by norm_num [List.forall_mem_cons])

/-- C3 counterexample: the red generator does not soft-clamp.  From
state 2 with a maximal draw, the updated state is `2.009`, whose
magnitude exceeds 0.95, yet it is left as is — the piecewise
compression the claim asserts would have produced `1.0559`. -/
theorem redStep_not_clamped_counterexample :
    redStepState 2 1 = 2.009 ∧
    (0.95 : ℚ) < |redStepState 2 1| ∧
    softClamp (2 * 0.9995 + (1 * 2 - 1) * 0.01) = 1.0559 ∧
    redStepState 2 1 ≠ softClamp (2 * 0.9995 + (1 * 2 - 1) * 0.01) := by
  refine ⟨by norm_num [redStepState], by norm_num [redStepState, abs_of_nonneg],
    by norm_num [softClamp, abs_of_nonneg], by norm_num [redStepState, softClamp, abs_of_nonneg]⟩

/-! ## C4 — profile import is applied field-wise, not atomically -/

/-- C4 counterexample: a snapshot whose `eq` and `effects` fields are
both missing is not rejected by `loadProfile`; its `noiseType` is
still applied, so live parameters change — the import is partial, not
atomic, and no error is surfaced. -/
theorem loadProfile_partial_apply_counterexample :
    (initState (List.replicate 7 0)).currentNoiseType = "white" ∧
    (loadProfile ⟨none, some "brown", none, none⟩
        (initState (List.replicate 7 0))).currentNoiseType = "brown" ∧
    (loadProfile ⟨none, some "brown", none, none⟩
        (initState (List.replicate 7 0))).currentNoiseType ≠
      (initState (List.replicate 7 0)).currentNoiseType := by
  exact ⟨rfl, rfl, by decide⟩

/-- C4 (amended): `loadProfile` applies each present profile section
independently and skips missing ones: when the `effects` field is
missing, every effect parameter is left unchanged, while a present
`noiseType` is still applied (and a present `eq` section still updates
the EQ).  Nothing is rejected and no error is surfaced; only a JSON
parse failure aborts `importProfile`. -/
theorem loadProfile_missing_effects (p : Profile) (s : EngineState)
    (hfx : p.effects = none) :
    effectParams (loadProfile p s) = effectParams s ∧
    (∀ t, p.noiseType = some t → (loadProfile p s).currentNoiseType = t) := by
  unfold loadProfile
  rw [hfx]
  cases hnt : p.noiseType with
  | none =>
    cases hq : p.eq with
    | none =>
      refine ⟨rfl, ?_⟩
      intro t ht
      exact Option.noConfusion ht
    | some entries =>
      refine ⟨(eqFold_frame entries s).1, ?_⟩
      intro t ht
      exact Option.noConfusion ht
  | some t0 =>
    cases hq : p.eq with
    | none =>
      refine ⟨rfl, ?_⟩
      intro t ht
      injection ht
    | some entries =>
      refine ⟨?_, ?_⟩
      · rw [(eqFold_frame entries (selectNoiseType t0 s)).1]
        rfl
      · intro t ht
        injection ht with h
        rw [(eqFold_frame entries (selectNoiseType t0 s)).2]
        exact h ▸ rfl

/-- Witness for C4 (amended): the spec's own scenario — a snapshot
with `noiseType` and an EQ entry but no `effects` field.  The effect
knobs survive untouched while the noise type is applied. -/
theorem loadProfile_missing_effects_witness :
    effectParams
        (loadProfile ⟨none, some "brown", some [("bass", 6)], none⟩
          (initState (List.replicate 7 0))) =
      effectParams (initState (List.replicate 7 0)) ∧
    (loadProfile ⟨none, some "brown", some [("bass", 6)], none⟩
        (initState (List.replicate 7 0))).currentNoiseType = "brown" :=
  ⟨(loadProfile_missing_effects _ _ rfl).1,
   (loadProfile_missing_effects _ _ rfl).2 "brown" rfl⟩

/-! ## C7 — fallback for unrecognized noise types -/

/-- C7 (amended): for a noise type matching none of the recognized
variants, `NoiseGenerator.generateContinuousNoise` falls back to its
pink-noise sample, but `SoundDesignerEngine.generateAudio` falls back
to white noise, not pink. -/
theorem unrecognized_type_fallback (t : String) (st : NoiseStates) (ng : NGState)
    (u : ℕ → ℚ) (k : ℕ) (hE : t ∉ engineRecognizedTypes) (hN : t ∉ ngRecognizedTypes) :
    engineStep t st u k = ((u k * 2 - 1) * 0.3, st, k + 1) ∧
    ngContinuousStep t ng u k = ngPinkSample ng u k := by
  simp only [engineRecognizedTypes, List.mem_cons, List.not_mem_nil, or_false,
    not_or] at hE
  simp only [ngRecognizedTypes, List.mem_cons, List.not_mem_nil, or_false,
    not_or] at hN
  obtain ⟨e1, e2, e3, e4, e5, e6, e7, e8⟩ := hE
  obtain ⟨n1, n2, n3, n4, n5⟩ := hN
  unfold engineStep ngContinuousStep
  rw [if_neg e1, if_neg e2, if_neg e3, if_neg e4, if_neg e5, if_neg e6, if_neg e7,
    if_neg e8, if_neg n1, if_neg n2, if_neg n3, if_neg n4, if_neg n5]
  exact ⟨rfl, rfl⟩

/-- Witness for C7 (amended) at the concrete unrecognized type
`"turquoise"`. -/
theorem unrecognized_type_fallback_witness :
    engineStep "turquoise" (initNoiseStates (List.replicate 7 0)) (fun _ => 1) 0 =
      (((fun _ => (1 : ℚ)) 0 * 2 - 1) * 0.3, initNoiseStates (List.replicate 7 0), 0 + 1) ∧
    ngContinuousStep "turquoise"
        ⟨0, List.replicate 7 0, List.replicate 7 0, 0, 0, 0⟩ (fun _ => 1) 0 =
      ngPinkSample ⟨0, List.replicate 7 0, List.replicate 7 0, 0, 0, 0⟩ (fun _ => 1) 0 :=
  unrecognized_type_fallback "turquoise" _ _ _ _ (by decide) (by decide)

/-- C7 counterexample: the engine's per-sample dispatch does not fall
back to pink.  With all-zero generator memory and a constant draw
stream of 1, the unrecognized type `"turquoise"` produces the white
sample 0.3, while pink would produce 0.35. -/
theorem engine_fallback_not_pink_counterexample :
    "turquoise" ∉ engineRecognizedTypes ∧
    (engineStep "turquoise" (initNoiseStates (List.replicate 7 0)) (fun _ => 1) 0).1 =
      0.3 ∧
    (engineStep "pink" (initNoiseStates (List.replicate 7 0)) (fun _ => 1) 0).1 =
      0.35 ∧
    (engineStep "turquoise" (initNoiseStates (List.replicate 7 0)) (fun _ => 1) 0).1 ≠
      (engineStep "pink" (initNoiseStates (List.replicate 7 0)) (fun _ => 1) 0).1 := by
  refine ⟨by decide, ?_, ?_, ?_⟩
  · simp [engineStep, generateWhiteNoise, initNoiseStates]
    norm_num
  · simp [engineStep, generatePinkNoise, pinkRows, pinkUpdateRates,
      initNoiseStates, List.replicate]
    norm_num
  · simp [engineStep, generateWhiteNoise, generatePinkNoise, pinkRows,
      pinkUpdateRates, initNoiseStates, List.replicate]
    norm_num

/-! ## C1 — soft limiter curve bounds -/

lemma tanh_lt_one (x : ℝ) : Real.tanh x < 1 := by
  rw [Real.tanh_eq_sinh_div_cosh, div_lt_one (Real.cosh_pos x)]
  exact Real.sinh_lt_cosh x

lemma abs_tanh_lt_one (x : ℝ) : |Real.tanh x| < 1 := by
  rw [abs_lt]
  constructor
  · have h := tanh_lt_one (-x)
    rw [Real.tanh_neg] at h
    linarith
  · exact tanh_lt_one x

/-- C1: the soft limiter transfer curve `tanh(0.7·x)·0.95` maps every
input — in particular every sample in `[-1,1]`, whatever noise type or
upstream parameter produced it — to an output of magnitude at most
0.95, hence within `[-1,1]`; the same holds for every entry of the
precomputed curve table. -/
theorem softLimiter_bounds :
    (∀ x : ℝ, |softLimiterCurveFun x| ≤ 0.95 ∧
      -1 ≤ softLimiterCurveFun x ∧ softLimiterCurveFun x ≤ 1) ∧
    (∀ i : ℕ, |createSoftLimiterCurve i| ≤ 0.95) := by
  have key : ∀ x : ℝ, |softLimiterCurveFun x| ≤ 0.95 := by
    intro x
    unfold softLimiterCurveFun
    rw [abs_mul, show |(0.95 : ℝ)| = 0.95 by norm_num]
    nlinarith [abs_tanh_lt_one (x * 0.7), abs_nonneg (Real.tanh (x * 0.7))]
  refine ⟨fun x => ⟨key x, ?_, ?_⟩, fun i => key (curveSampleX i)⟩
  · linarith [(abs_le.mp (key x)).1]
  · linarith [(abs_le.mp (key x)).2]

/-! ## C6 — reverb mix law -/

/-- C6 counterexample: the sound designer engine's `updateEffect`
reverb case is linear, not equal-power.  At knob value 100 (normalized
mix 1) it sets the dry gain to `1 - 1·0.5 = 1/2` and the wet gain to
`1·0.8 = 4/5`, while the claimed equal-power law demands a dry gain of
`√(1-1) = 0`. -/
theorem engine_reverb_linear_counterexample :
    (updateEffect "reverb" 100 (initState (List.replicate 7 0))).reverbDryGain = 1/2 ∧
    (updateEffect "reverb" 100 (initState (List.replicate 7 0))).reverbWetGain = 4/5 ∧
    Real.sqrt (1 - 100 / 100) = 0 ∧
    ¬(((updateEffect "reverb" 100 (initState (List.replicate 7 0))).reverbDryGain : ℝ) =
        Real.sqrt (1 - 100 / 100)) := by
  have hd : (updateEffect "reverb" 100 (initState (List.replicate 7 0))).reverbDryGain
      = 1/2 := by
    simp [updateEffect, initState]
    norm_num
  have hs : Real.sqrt (1 - 100 / 100) = 0 := by
    rw [show (1 - 100 / 100 : ℝ) = 0 by norm_num, Real.sqrt_zero]
  refine ⟨hd, ?_, hs, ?_⟩
  · simp [updateEffect, initState]
    norm_num
  · rw [hd, hs]
    norm_num

/-- C6 (amended): `AudioEffects.setReverbLevel` in `update-index.js`
does follow the equal-power crossfade law — for any mix level in
`[0,1]`, dry `= √(1-wet)`, wet `= √wet`, and the squared gains sum to
1 — while the sound designer engine's `updateEffect` reverb case uses
the linear law wet `= 0.8·mix`, dry `= 1 - 0.5·mix`. -/
theorem setReverbLevel_equal_power (level : ℝ) (h0 : 0 ≤ level) (h1 : level ≤ 1) :
    setReverbDryLevel level = Real.sqrt (1 - level) ∧
    setReverbWetLevel level = Real.sqrt level ∧
    setReverbDryLevel level ^ 2 + setReverbWetLevel level ^ 2 = 1 ∧
    (∀ (v : ℚ) (s : EngineState),
      (updateEffect "reverb" v s).reverbWetGain = v / 100 * 0.8 ∧
      (updateEffect "reverb" v s).reverbDryGain = 1 - v / 100 * 0.5) := by
  have hcl : reverbLevelClamped level = level := by
    unfold reverbLevelClamped
    rw [min_eq_right h1, max_eq_right h0]
  refine ⟨?_, ?_, ?_, ?_⟩
  · unfold setReverbDryLevel; rw [hcl]
  · unfold setReverbWetLevel; rw [hcl]
  · unfold setReverbDryLevel setReverbWetLevel
    rw [hcl, Real.sq_sqrt (by linarith), Real.sq_sqrt h0]
    ring
  · intro v s
    constructor <;> rfl

/-- Witness for C6 (amended) at the concrete mix level `1/2`. -/
theorem setReverbLevel_equal_power_witness :
    setReverbDryLevel (1/2) = Real.sqrt (1 - 1/2) ∧
    setReverbDryLevel (1/2) ^ 2 + setReverbWetLevel (1/2) ^ 2 = 1 :=
  ⟨(setReverbLevel_equal_power (1/2) (by norm_num) (by norm_num)).1,
   (setReverbLevel_equal_power (1/2) (by norm_num) (by norm_num)).2.2.1⟩

/-! ## C5 — saturation curve shape -/

lemma saturationCurveFun_eq (a x : ℝ) :
    saturationCurveFun a x =
      (3 + a * 20) * (Real.pi / 9) * x / (Real.pi + a * |x|) := by
  unfold saturationCurveFun
  ring_nf

lemma sat_mono_nonneg {a x y : ℝ} (ha : 0 ≤ a) (hx : 0 ≤ x) (hxy : x ≤ y) :
    saturationCurveFun a x ≤ saturationCurveFun a y := by
  have hy : 0 ≤ y := le_trans hx hxy
  rw [saturationCurveFun_eq, saturationCurveFun_eq, abs_of_nonneg hx, abs_of_nonneg hy]
  have hdx : (0:ℝ) < Real.pi + a * x := by nlinarith [Real.pi_pos, mul_nonneg ha hx]
  have hdy : (0:ℝ) < Real.pi + a * y := by nlinarith [Real.pi_pos, mul_nonneg ha hy]
  rw [div_le_div_iff₀ hdx hdy]
  have hc : (0:ℝ) < (3 + a * 20) * (Real.pi / 9) := by nlinarith [Real.pi_pos]
  nlinarith [mul_nonneg (mul_nonneg hc.le Real.pi_pos.le) (sub_nonneg.mpr hxy)]

lemma sat_odd (a x : ℝ) : saturationCurveFun a (-x) = -saturationCurveFun a x := by
  rw [saturationCurveFun_eq, saturationCurveFun_eq, abs_neg]
  ring

lemma sat_nonneg {a x : ℝ} (ha : 0 ≤ a) (hx : 0 ≤ x) : 0 ≤ saturationCurveFun a x := by
  rw [saturationCurveFun_eq, abs_of_nonneg hx]
  apply div_nonneg
  · apply mul_nonneg (mul_nonneg (by linarith) (by positivity)) hx
  · nlinarith [Real.pi_pos, mul_nonneg ha hx]

lemma sat_mono {a : ℝ} (ha : 0 ≤ a) {x y : ℝ} (hxy : x ≤ y) :
    saturationCurveFun a x ≤ saturationCurveFun a y := by
  rcases le_or_lt 0 x with hx | hx
  · exact sat_mono_nonneg ha hx hxy
  rcases le_or_lt 0 y with hy | hy
  · have h2 : 0 ≤ saturationCurveFun a (-x) := sat_nonneg ha (by linarith)
    rw [sat_odd] at h2
    linarith [sat_nonneg ha hy]
  · have h := sat_mono_nonneg ha (by linarith : (0:ℝ) ≤ -y) (by linarith : -y ≤ -x)
    rw [sat_odd, sat_odd] at h
    linarith

lemma abs_sat {a x : ℝ} (ha : 0 ≤ a) :
    |saturationCurveFun a x| = saturationCurveFun a |x| := by
  rcases le_or_lt 0 x with hx | hx
  · rw [abs_of_nonneg hx, abs_of_nonneg (sat_nonneg ha hx)]
  · have hx2 : saturationCurveFun a x = -saturationCurveFun a (-x) := by
      have h := sat_odd a x
      linarith
    rw [abs_of_neg hx, hx2, abs_neg, abs_of_nonneg (sat_nonneg ha (by linarith))]

lemma sat_at_one_le {a : ℝ} (ha : 0 ≤ a) (ha3 : a ≤ 1/3) : saturationCurveFun a 1 ≤ 1 := by
  rw [saturationCurveFun_eq, abs_one, mul_one]
  rw [div_le_one (by nlinarith [Real.pi_pos])]
  have h : (0:ℝ) ≤ (1/3 - a) * (20 * Real.pi - 9) :=
    mul_nonneg (by linarith) (by nlinarith [Real.pi_gt_three])
  nlinarith [Real.pi_lt_four]

/-- C5 (amended): for every drive amount `a ≥ 0` (the knob reaches
`[0, 0.8]`), the saturation transfer curve is monotone non-decreasing
and odd-symmetric; but the claimed bound — inputs in `[-1,1]` map into
`[-1,1]` — only holds for drive amounts up to `1/3` (knob positions
below ≈ 42).  At higher drive the curve overshoots 1 near full-scale
input. -/
theorem saturationCurve_monotone_odd (a x y : ℝ) (ha : 0 ≤ a) :
    (x ≤ y → saturationCurveFun a x ≤ saturationCurveFun a y) ∧
    saturationCurveFun a (-x) = -saturationCurveFun a x ∧
    (a ≤ 1/3 → |x| ≤ 1 → |saturationCurveFun a x| ≤ 1) := by
  refine ⟨fun hxy => sat_mono ha hxy, sat_odd a x, fun ha3 hx => ?_⟩
  rw [abs_sat ha]
  calc saturationCurveFun a |x| ≤ saturationCurveFun a 1 := sat_mono ha hx
    _ ≤ 1 := sat_at_one_le ha ha3

/-- Witness for C5 (amended) at the concrete drive `1/4` and inputs
`1/2 ≤ 3/4`. -/
theorem saturationCurve_monotone_odd_witness :
    (saturationCurveFun (1/4) (1/2) ≤ saturationCurveFun (1/4) (3/4)) ∧
    saturationCurveFun (1/4) (-(1/2)) = -saturationCurveFun (1/4) (1/2) ∧
    |saturationCurveFun (1/4) (1/2)| ≤ 1 :=
  ⟨(saturationCurve_monotone_odd (1/4) (1/2) (3/4) (by norm_num)).1 (by norm_num),
   (saturationCurve_monotone_odd (1/4) (1/2) (3/4) (by norm_num)).2.1,
   (saturationCurve_monotone_odd (1/4) (1/2) (3/4) (by norm_num)).2.2 (by norm_num)
     (by rw [abs_of_nonneg (by norm_num : (0:ℝ) ≤ 1/2)]; norm_num)⟩

/-- C5 counterexample: the saturation curve is not bounded by 1 over
the reachable drive range.  Knob value 100 yields drive
`0.8 = 4/5`, and the last sampled input `x = 22049/22050 ∈ [-1,1]`
produces an output exceeding 1 (it is ≈ 1.68). -/
theorem saturationCurve_exceeds_one_counterexample :
    saturationDriveOfKnob 100 = 4/5 ∧
    curveSampleX 44099 = 22049/22050 ∧
    |curveSampleX 44099| ≤ 1 ∧
    1 < createSaturationCurve (4/5) 44099 := by
  have hx : curveSampleX 44099 = 22049/22050 := by
    unfold curveSampleX
    norm_num
  refine ⟨by norm_num [saturationDriveOfKnob], hx, ?_, ?_⟩
  · rw [hx, abs_of_nonneg (by norm_num : (0:ℝ) ≤ 22049/22050)]
    norm_num
  · unfold createSaturationCurve
    rw [hx, saturationCurveFun_eq,
      abs_of_nonneg (by norm_num : (0:ℝ) ≤ 22049/22050)]
    rw [lt_div_iff₀ (by nlinarith [Real.pi_pos])]
    nlinarith [Real.pi_gt_three]

end ColorNoise
